import Mathlib

/-!
Shallow embedding of `src/app.py`, a single-file Streamlit dashboard over a
COVID-19 vaccination CSV for Sri Lanka.

Modelling conventions:
* A pandas DataFrame row is a `Row` record whose fields are the dataset
  columns documented in the About page of `app.py` (lines 254-269); the
  DataFrame itself is a `List Row`.
* Dates (`parse_dates=["date"]`) are modelled as `Int` day ordinals; the
  date-range select slider hands back two endpoints that pandas coerces to
  timestamps before comparing, so the endpoints are `Int` here as well.
* Numeric series statistics: `Series.max` / `Series.min` return `none` on an
  empty series (pandas NaN), `Series.mean` is exact rational arithmetic,
  `Series.idxmax` selects the first row attaining the maximum, as pandas does.
* Each `st.*` call that emits something to the page is one `OutputElem`;
  running one script body is a `List OutputElem`.  String formatting
  (f-strings, `:,.0f`) is a display concern of the host framework and is not
  modelled: metric elements carry the computed value itself.
* Streamlit widgets return values; a `Widgets` record collects the value each
  widget on the page produced for this run.
* `pd.read_csv` is modelled as `load_data`: the file is a header line plus
  records of 14 string fields, numeric fields and the date parsed as integers.
-/

namespace App

/-- One row of the loaded table; fields are the dataset columns in the order
documented in `app.py` (About page, lines 256-269). -/
structure Row where
  date : Int
  iso_code : String
  country : String
  daily_vaccinations : Int
  people_vaccinated : Int
  people_fully_vaccinated : Int
  total_vaccinations : Int
  daily_people_vaccinated : Int
  vaccines : String
  source_name : String
  source_website : String
  progress_stage : String
  coverage_level : String
  intensity_level : String
deriving DecidableEq, Repr

/-- `df.columns.tolist()`: the column names, in file order. -/
def columns : List String :=
  [ "date", "iso_code", "country", "daily_vaccinations", "people_vaccinated",
    "people_fully_vaccinated", "total_vaccinations", "daily_people_vaccinated",
    "vaccines", "source_name", "source_website", "progress_stage",
    "coverage_level", "intensity_level" ]

/-- `df.select_dtypes(number).columns`: the integer-valued columns
(`date` is datetime-typed after `parse_dates`, the rest are strings). -/
def numericColumns : List String :=
  [ "daily_vaccinations", "people_vaccinated", "people_fully_vaccinated",
    "total_vaccinations", "daily_people_vaccinated" ]

/-- A cell value of the table: integers (numeric and date columns) or text. -/
inductive Value where
  | vInt : Int → Value
  | vRat : Rat → Value
  | vStr : String → Value
deriving DecidableEq, Repr

/-- `df[c]` for a single row: the cell of row `r` in column `c`
(`none` for a column the table does not have). -/
def Row.cell (r : Row) (c : String) : Option Value :=
  if c = "date" then some (.vInt r.date)
  else if c = "iso_code" then some (.vStr r.iso_code)
  else if c = "country" then some (.vStr r.country)
  else if c = "daily_vaccinations" then some (.vInt r.daily_vaccinations)
  else if c = "people_vaccinated" then some (.vInt r.people_vaccinated)
  else if c = "people_fully_vaccinated" then some (.vInt r.people_fully_vaccinated)
  else if c = "total_vaccinations" then some (.vInt r.total_vaccinations)
  else if c = "daily_people_vaccinated" then some (.vInt r.daily_people_vaccinated)
  else if c = "vaccines" then some (.vStr r.vaccines)
  else if c = "source_name" then some (.vStr r.source_name)
  else if c = "source_website" then some (.vStr r.source_website)
  else if c = "progress_stage" then some (.vStr r.progress_stage)
  else if c = "coverage_level" then some (.vStr r.coverage_level)
  else if c = "intensity_level" then some (.vStr r.intensity_level)
  else none

/-- `Series.max` on a list of integers: `none` on the empty series (NaN). -/
def listMax : List Int → Option Int
  | [] => none
  | x :: xs =>
    some (match listMax xs with
          | none => x
          | some m => max x m)

/-- `Series.min` on a list of integers: `none` on the empty series (NaN). -/
def listMin : List Int → Option Int
  | [] => none
  | x :: xs =>
    some (match listMin xs with
          | none => x
          | some m => min x m)

/-- `df[c].max()` for an integer-valued column selector. -/
def colMax (df : List Row) (f : Row → Int) : Option Int :=
  listMax (df.map f)

/-- `df[c].min()` for an integer-valued column selector. -/
def colMin (df : List Row) (f : Row → Int) : Option Int :=
  listMin (df.map f)

/-- `df[c].mean()`: exact rational mean, `none` on the empty series (NaN). -/
def colMean (df : List Row) (f : Row → Int) : Option Rat :=
  if df.isEmpty then none
  else some ((((df.map f).sum : Int) : Rat) / (df.length : Rat))

/-- `df.loc[df[c].idxmax()]`: the first row attaining the column maximum
(`idxmax` returns the first index of the maximum). -/
def idxmaxRow (df : List Row) (f : Row → Int) : Option Row :=
  (colMax df f).bind (fun m => df.find? (fun r => f r == m))

/-- Insert a string into a sorted list (helper for the sorted group keys). -/
def insertSorted (s : String) : List String → List String
  | [] => [s]
  | t :: ts => if s ≤ t then s :: t :: ts else t :: insertSorted s ts

/-- Sort strings ascending (pandas `groupby` sorts group keys by default). -/
def sortStrings : List String → List String
  | [] => []
  | t :: ts => insertSorted t (sortStrings ts)

/-- `df.groupby(key)[val].mean().reset_index()`: mean of `f` per key group,
keys sorted ascending as pandas does. -/
def groupbyMean (df : List Row) (key : Row → String) (f : Row → Int) :
    List (String × Rat) :=
  (sortStrings (df.map key).dedup).map
    (fun k => (k, (colMean (df.filter (fun r => key r == k)) f).getD 0))

/-- The value produced by each interactive widget of the script for one run. -/
structure Widgets where
  /-- Overview line 89: `st.checkbox` for the full dataset. -/
  showFull : Bool
  /-- Visualizations line 125: `st.selectbox` over `df.columns.tolist()`. -/
  selectedColumn : String
  /-- Visualizations line 170: `st.selectbox` over `df["iso_code"].unique()`. -/
  selectedIso : String
  /-- Visualizations line 173: `st.multiselect` over `df.columns.tolist()`. -/
  selectedCols : List String
  /-- Visualizations lines 177-181: lower endpoint of the date select slider. -/
  dateLo : Int
  /-- Visualizations lines 177-181: upper endpoint of the date select slider. -/
  dateHi : Int
  /-- Visualizations line 186: `st.slider` threshold. -/
  threshold : Int
  /-- Filters line 205: `st.number_input` minimum. -/
  minInput : Int
  /-- Filters line 212: `st.selectbox` over the numeric columns. -/
  uniCol : String
  /-- Filters line 213: `st.radio` over Histogram / Boxplot. -/
  plotType : String
  /-- Filters line 226: `st.selectbox` x variable. -/
  xVar : String
  /-- Filters line 227: `st.selectbox` y variable. -/
  yVar : String
deriving DecidableEq, Repr

/-- One visible element emitted by an `st.*` or `px.*` call. -/
inductive OutputElem where
  /-- `set_bg_from_local`: style markdown built from the image file bytes. -/
  | bgImage : List Nat → OutputElem
  | title : String → OutputElem
  | header : String → OutputElem
  | subheader : String → OutputElem
  | markdown : String → OutputElem
  /-- `st.metric` and the HTML metric cards: label and computed value. -/
  | metric : String → Option Value → OutputElem
  /-- Overview lines 70-72: the period markdown, carrying min and max date. -/
  | periodInfo : Option Int → Option Int → OutputElem
  /-- `px.line(data, x, y)`. -/
  | lineChart : List Row → String → String → OutputElem
  /-- `px.line(data, x, y, color)`. -/
  | lineChartColored : List Row → String → String → String → OutputElem
  /-- `px.histogram(data, x, nbins)`. -/
  | histogram : List Row → String → Nat → OutputElem
  /-- `px.scatter(data, x, y)`. -/
  | scatter : List Row → String → String → OutputElem
  /-- `px.box(data, x, y)`; the univariate boxplot has no y column. -/
  | boxPlot : List Row → String → Option String → OutputElem
  /-- `px.bar` over a grouped aggregate, with x and y column names. -/
  | barChart : List (String × Rat) → String → String → OutputElem
  /-- `st.dataframe(rows)`. -/
  | dataframe : List Row → OutputElem
  /-- `st.dataframe(df[cols])`: a column projection of the table. -/
  | dataframeCols : List (List (Option Value)) → List String → OutputElem
  /-- `st.write` of plain text. -/
  | writeText : String → OutputElem
  /-- `st.line_chart` over an indexed series of (date, value) points. -/
  | simpleLineChart : List (Int × Int) → OutputElem
  /-- `st.download_button(label, data)`: the rows serialized to CSV. -/
  | downloadButton : String → List Row → OutputElem
deriving DecidableEq, Repr

/-- `df[df["daily_vaccinations"] > t]`: the strict threshold filter used by
the Visualizations slider (line 187) and the Filters number input (line 206). -/
def thresholdFilter (df : List Row) (t : Int) : List Row :=
  df.filter (fun r => decide (t < r.daily_vaccinations))

/-- `df[(df["date"] >= lo) & (df["date"] <= hi)]` (line 183): the date-range
boolean-mask filter, both endpoints inclusive. -/
def dateRangeFilter (df : List Row) (lo hi : Int) : List Row :=
  df.filter (fun r => decide (lo ≤ r.date ∧ r.date ≤ hi))

/-- `df[df["iso_code"] == s]` (line 171). -/
def isoFilter (df : List Row) (s : String) : List Row :=
  df.filter (fun r => r.iso_code == s)

/-- `df[cols]` (line 175): column projection of every row. -/
def selectCols (df : List Row) (cols : List String) :
    List (List (Option Value)) :=
  df.map (fun r => cols.map (fun c => r.cell c))

/-- `filtered_df` of line 183, the payload of the download button (line 192). -/
def downloadData (df : List Row) (w : Widgets) : List Row :=
  dateRangeFilter df w.dateLo w.dateHi

/-- The Overview branch (lines 51-90).  Textual constants are abbreviated to
their leading words; `st.metric` strings carry the computed value unformatted. -/
def renderOverview (df : List Row) (w : Widgets) (bg : List Nat) :
    List OutputElem :=
  [ .bgImage bg,
    .title "🇱🇰 Sri Lanka COVID-19 Vaccination Dashboard",
    .markdown "Welcome! This dashboard provides insights into Sri Lankas COVID-19 vaccination campaign using real data.",
    .header "🔢 Key Performance Indicators (KPIs)",
    .metric "💉 Total People Vaccinated"
      ((colMax df (fun r => r.people_vaccinated)).map .vInt),
    .metric "📆 Average Daily Vaccinations"
      ((colMean df (fun r => r.daily_vaccinations)).map .vRat),
    .metric "🔝 Peak Vaccination Day"
      ((idxmaxRow df (fun r => r.daily_vaccinations)).map (fun r => .vInt r.date)),
    .markdown "---",
    .subheader "📅 Vaccination Timeline",
    .periodInfo (colMin df (fun r => r.date)) (colMax df (fun r => r.date)),
    .subheader "📈 Vaccination Trend",
    .lineChart df "date" "daily_vaccinations",
    .markdown "---",
    .subheader "🧾 Dataset Preview",
    .dataframe (df.take 5) ]
  ++ (if w.showFull then [ .dataframe df ] else [])

/-- The Visualizations branch (lines 95-195). -/
def renderVisualizations (df : List Row) (w : Widgets) : List OutputElem :=
  [ .title "📈 Interactive Visualizations",
    .metric "Total Vaccinated"
      ((colMax df (fun r => r.people_vaccinated)).map .vInt),
    .metric "Average Daily Vaccinations"
      ((colMean df (fun r => r.daily_vaccinations)).map .vRat),
    .metric "Peak Vaccination Day"
      ((idxmaxRow df (fun r => r.daily_vaccinations)).map (fun r => .vInt r.date)),
    .histogram df "daily_vaccinations" 30,
    .lineChart df "date" w.selectedColumn,
    .scatter df "people_vaccinated" "daily_people_vaccinated",
    .subheader "📊 Vaccination Progress by Stage",
    .barChart
      (groupbyMean df (fun r => r.progress_stage) (fun r => r.daily_vaccinations))
      "progress_stage" "daily_vaccinations",
    .subheader "🎯 Coverage Level vs Daily Vaccinations",
    .boxPlot df "coverage_level" (some "daily_vaccinations"),
    .subheader "📈 Intensity Level Over Time",
    .lineChartColored df "date" "daily_vaccinations" "intensity_level",
    .dataframe (isoFilter df w.selectedIso) ]
  ++ (if w.selectedCols.isEmpty then []
      else [ .dataframeCols (selectCols df w.selectedCols) w.selectedCols ])
  ++ [ .writeText "Date range selected",
       .simpleLineChart
         ((dateRangeFilter df w.dateLo w.dateHi).map
           (fun r => (r.date, r.daily_vaccinations))),
       .dataframe (thresholdFilter df w.threshold),
       .downloadButton "Download Filtered Data" (downloadData df w) ]

/-- The Filters branch (lines 200-234). -/
def renderFilters (df : List Row) (w : Widgets) : List OutputElem :=
  [ .title "📊 Data Exploration: Filters & Analysis",
    .subheader "📋 Filter Data by Daily Vaccinations",
    .dataframe (thresholdFilter df w.minInput),
    .subheader "🔹 Univariate Analysis",
    (if w.plotType = "Histogram" then .histogram df w.uniCol 30
     else .boxPlot df w.uniCol none),
    .subheader "🔸 Bivariate Analysis",
    .scatter df w.xVar w.yVar ]

/-- The fixed About markdown (lines 241-275), abbreviated to leading words. -/
def aboutText : String :=
  "This dashboard provides insights into Sri Lankas COVID-19 vaccination campaign using real data from government and public health sources."

/-- The About branch (lines 239-275): a title and a fixed markdown constant. -/
def renderAbout : List OutputElem :=
  [ .title "💬 About this Dashboard",
    .markdown aboutText ]

/-- `st.sidebar.radio("Go to", [...])` (line 46): the four offered labels. -/
def pageOptions : List String :=
  [ "Overview", "Visualizations", "Filters", "About" ]

/-- The `if page == ... / elif ...` chain of lines 51, 95, 200 and 239. -/
def renderPage (page : String) (df : List Row) (w : Widgets) (bg : List Nat) :
    List OutputElem :=
  if page = "Overview" then renderOverview df w bg
  else if page = "Visualizations" then renderVisualizations df w
  else if page = "Filters" then renderFilters df w
  else if page = "About" then renderAbout
  else []

/-- Decimal digit value of a character. -/
def digitVal (c : Char) : Option Nat :=
  if c = '0' then some 0 else if c = '1' then some 1 else if c = '2' then some 2
  else if c = '3' then some 3 else if c = '4' then some 4 else if c = '5' then some 5
  else if c = '6' then some 6 else if c = '7' then some 7 else if c = '8' then some 8
  else if c = '9' then some 9 else none

/-- Accumulate decimal digits into a natural number. -/
def parseNatAux : List Char → Nat → Option Nat
  | [], acc => some acc
  | c :: cs, acc => (digitVal c).bind (fun d => parseNatAux cs (10 * acc + d))

/-- An integer-valued CSV field: an optional sign followed by digits. -/
def parseIntField (s : String) : Option Int :=
  match s.toList with
  | [] => none
  | '-' :: c :: cs => (parseNatAux (c :: cs) 0).map (fun n => -(n : Int))
  | c :: cs => (parseNatAux (c :: cs) 0).map (fun n => (n : Int))

/-- One record of the CSV file: 14 string fields, numeric fields and the
date parsed as integers (`parse_dates=["date"]`). -/
def parseRow (fs : List String) : Option Row :=
  match fs with
  | [d, iso, ctry, dv, pv, pfv, tv, dpv, vac, sn, sw, ps, cl, il] =>
    match parseIntField d, parseIntField dv, parseIntField pv,
      parseIntField pfv, parseIntField tv, parseIntField dpv with
    | some dd, some dvv, some pvv, some pfvv, some tvv, some dpvv =>
      some { date := dd, iso_code := iso, country := ctry,
             daily_vaccinations := dvv, people_vaccinated := pvv,
             people_fully_vaccinated := pfvv, total_vaccinations := tvv,
             daily_people_vaccinated := dpvv, vaccines := vac,
             source_name := sn, source_website := sw, progress_stage := ps,
             coverage_level := cl, intensity_level := il }
    | _, _, _, _, _, _ => none
  | _ => none

/-- `load_data` (lines 36-38): `pd.read_csv("slcoviddata1.csv",
parse_dates=["date"])`, modelled on the decoded file as a header line that
must match the column list followed by the data records. -/
def load_data (csv : List (List String)) : Option (List Row) :=
  match csv with
  | header :: records =>
    if header = columns then records.mapM parseRow else none
  | [] => none

/-- The whole script body (lines 40-275): load once, then dispatch on the
sidebar selection.  When the read fails the script raises and renders
nothing. -/
def renderScript (page : String) (w : Widgets) (csv : List (List String))
    (bg : List Nat) : List OutputElem :=
  match load_data csv with
  | some df => renderPage page df w bg
  | none => []

/-- The label-to-branch association of the four `if`/`elif` branches, in
source order. -/
def branchTable (df : List Row) (w : Widgets) (bg : List Nat) :
    List (String × List OutputElem) :=
  [ ("Overview", renderOverview df w bg),
    ("Visualizations", renderVisualizations df w),
    ("Filters", renderFilters df w),
    ("About", renderAbout) ]

/-! ### Sample data used by the witness theorems -/

/-- A concrete first row of a small sample table. -/
def sampleRow1 : Row :=
  { date := 100, iso_code := "LKA", country := "Sri Lanka",
    daily_vaccinations := 500, people_vaccinated := 1000,
    people_fully_vaccinated := 400, total_vaccinations := 1400,
    daily_people_vaccinated := 300, vaccines := "Sinopharm",
    source_name := "WHO", source_website := "who.int",
    progress_stage := "early", coverage_level := "low",
    intensity_level := "slow" }

/-- A concrete second row of the sample table. -/
def sampleRow2 : Row :=
  { date := 101, iso_code := "LKA", country := "Sri Lanka",
    daily_vaccinations := 800, people_vaccinated := 1800,
    people_fully_vaccinated := 700, total_vaccinations := 2500,
    daily_people_vaccinated := 250, vaccines := "Sinopharm",
    source_name := "WHO", source_website := "who.int",
    progress_stage := "mid", coverage_level := "medium",
    intensity_level := "moderate" }

/-- A concrete two-row sample table. -/
def sampleDf : List Row := [sampleRow1, sampleRow2]

/-- A concrete assignment of every widget value. -/
def sampleWidgets : Widgets :=
  { showFull := false, selectedColumn := "daily_vaccinations",
    selectedIso := "LKA", selectedCols := [ "date" ],
    dateLo := 100, dateHi := 101, threshold := 500, minInput := 500,
    uniCol := "daily_vaccinations", plotType := "Histogram",
    xVar := "people_vaccinated", yVar := "daily_vaccinations" }

/-- The sample table as a decoded CSV file: header plus two records. -/
def sampleCsv : List (List String) :=
  [ columns,
    [ "100", "LKA", "Sri Lanka", "500", "1000", "400", "1400", "300",
      "Sinopharm", "WHO", "who.int", "early", "low", "slow" ],
    [ "101", "LKA", "Sri Lanka", "800", "1800", "700", "2500", "250",
      "Sinopharm", "WHO", "who.int", "mid", "medium", "moderate" ] ]

/-- The boolean-mask filter operations the pages apply to the loaded table. -/
inductive FilterOp where
  /-- `df[df["iso_code"] == s]`. -/
  | isoEq : String → FilterOp
  /-- `df[(df["date"] >= lo) & (df["date"] <= hi)]`. -/
  | dateBetween : Int → Int → FilterOp
  /-- `df[df["daily_vaccinations"] > t]`. -/
  | dvAbove : Int → FilterOp
deriving DecidableEq, Repr

/-- Apply one mask filter to a table. -/
def applyOp (op : FilterOp) (df : List Row) : List Row :=
  match op with
  | .isoEq s => isoFilter df s
  | .dateBetween lo hi => dateRangeFilter df lo hi
  | .dvAbove t => thresholdFilter df t

/-- Apply a sequence of mask filters, left to right. -/
def applyOps (ops : List FilterOp) (df : List Row) : List Row :=
  ops.foldl (fun d op => applyOp op d) df

/-- A second widget assignment differing from `sampleWidgets` in the
threshold and minimum filters only. -/
def sampleWidgets2 : Widgets :=
  { sampleWidgets with threshold := 999, minInput := 0 }

/-- The USA row of the two-country CSV below. -/
def rowUSA : Row :=
  { date := 100, iso_code := "USA", country := "United States",
    daily_vaccinations := 900, people_vaccinated := 5000,
    people_fully_vaccinated := 2000, total_vaccinations := 7000,
    daily_people_vaccinated := 800, vaccines := "Pfizer",
    source_name := "CDC", source_website := "cdc.gov",
    progress_stage := "mid", coverage_level := "medium",
    intensity_level := "moderate" }

/-- A decoded CSV whose two records carry different iso_code values. -/
def twoCountryCsv : List (List String) :=
  [ columns,
    [ "100", "LKA", "Sri Lanka", "500", "1000", "400", "1400", "300",
      "Sinopharm", "WHO", "who.int", "early", "low", "slow" ],
    [ "100", "USA", "United States", "900", "5000", "2000", "7000", "800",
      "Pfizer", "CDC", "cdc.gov", "mid", "medium", "moderate" ] ]

/-! ### Helper lemmas about the embedded pandas operations -/

theorem listMax_eq_none_iff (l : List Int) : listMax l = none ↔ l = [] := by
  cases l with
  | nil => simp [listMax]
  | cons x xs => simp [listMax]

theorem listMax_isSome (l : List Int) (h : l ≠ []) : (listMax l).isSome := by
  cases l with
  | nil => exact absurd rfl h
  | cons x xs => simp [listMax]

theorem listMax_spec (l : List Int) (m : Int) (h : listMax l = some m) :
    m ∈ l ∧ ∀ x ∈ l, x ≤ m := by
  induction l generalizing m with
  | nil => simp [listMax] at h
  | cons x xs ih =>
    cases hxs : listMax xs with
    | none =>
      have hnil : xs = [] := (listMax_eq_none_iff xs).mp hxs
      subst hnil
      simp [listMax] at h
      subst h
      simp
    | some m2 =>
      simp [listMax, hxs] at h
      obtain ⟨hm2, hub⟩ := ih m2 hxs
      subst h
      constructor
      · rcases max_choice x m2 with hc | hc
        · simp [hc]
        · simp [hc, hm2]
      · intro y hy
        rcases List.mem_cons.mp hy with hy | hy
        · exact hy ▸ le_max_left x m2
        · exact le_trans (hub y hy) (le_max_right x m2)

theorem colMax_spec (df : List Row) (f : Row → Int) (hne : df ≠ []) :
    ∃ m, colMax df f = some m ∧ (∃ r ∈ df, f r = m) ∧ ∀ r ∈ df, f r ≤ m := by
  have hmap : df.map f ≠ [] := by simpa using hne
  obtain ⟨m, hm⟩ := Option.isSome_iff_exists.mp (listMax_isSome (df.map f) hmap)
  obtain ⟨hmem, hub⟩ := listMax_spec (df.map f) m hm
  obtain ⟨r, hr, hfr⟩ := List.mem_map.mp hmem
  exact ⟨m, hm, ⟨r, hr, hfr⟩, fun s hs => hub (f s) (List.mem_map_of_mem f hs)⟩

theorem idxmaxRow_spec (df : List Row) (f : Row → Int) (hne : df ≠ []) :
    ∃ peak, idxmaxRow df f = some peak ∧ peak ∈ df ∧
      ∀ r ∈ df, f r ≤ f peak := by
  obtain ⟨m, hm, ⟨r, hr, hfr⟩, hub⟩ := colMax_spec df f hne
  have hfind : (df.find? (fun s => f s == m)).isSome := by
    rw [List.find?_isSome]
    exact ⟨r, hr, by simpa using hfr⟩
  obtain ⟨peak, hpeak⟩ := Option.isSome_iff_exists.mp hfind
  have hmem : peak ∈ df := List.mem_of_find?_eq_some hpeak
  have hval : f peak = m := by
    have := List.find?_some hpeak
    simpa using this
  refine ⟨peak, ?_, hmem, ?_⟩
  · simp [idxmaxRow, hm, hpeak]
  · intro s hs
    exact hval ▸ hub s hs

theorem colMean_spec (df : List Row) (f : Row → Int) (hne : df ≠ []) :
    ∃ q, colMean df f = some q ∧
      q * (df.length : Rat) = (((df.map f).sum : Int) : Rat) := by
  refine ⟨(((df.map f).sum : Int) : Rat) / (df.length : Rat), ?_, ?_⟩
  · simp [colMean, List.isEmpty_iff, hne]
  · have hlen : (df.length : Rat) ≠ 0 := by
      simpa using hne
    exact div_mul_cancel₀ _ hlen

theorem mem_thresholdFilter (df : List Row) (t : Int) (r : Row) :
    r ∈ thresholdFilter df t ↔ r ∈ df ∧ t < r.daily_vaccinations := by
  simp [thresholdFilter, List.mem_filter]

theorem mem_dateRangeFilter (df : List Row) (lo hi : Int) (r : Row) :
    r ∈ dateRangeFilter df lo hi ↔ r ∈ df ∧ lo ≤ r.date ∧ r.date ≤ hi := by
  simp [dateRangeFilter, List.mem_filter]

theorem mem_isoFilter (df : List Row) (s : String) (r : Row) :
    r ∈ isoFilter df s ↔ r ∈ df ∧ r.iso_code = s := by
  simp [isoFilter, List.mem_filter]

theorem applyOp_sublist (op : FilterOp) (df : List Row) :
    (applyOp op df).Sublist df := by
  cases op with
  | isoEq s => exact List.filter_sublist df
  | dateBetween lo hi => exact List.filter_sublist df
  | dvAbove t => exact List.filter_sublist df

theorem applyOps_sublist (ops : List FilterOp) (df : List Row) :
    (applyOps ops df).Sublist df := by
  induction ops generalizing df with
  | nil => simp [applyOps]
  | cons op ops ih =>
    have h2 := ih (applyOp op df)
    simpa [applyOps] using h2.trans (applyOp_sublist op df)

/-! ### Claim theorems -/

/-- C1: the sidebar radio offers exactly the four labels Overview,
Visualizations, Filters and About, and for every sidebar selection exactly
one of the four display branches is rendered, namely the branch whose label
equals the selected radio value. -/
theorem sidebar_dispatch_exactly_one (page : String) (df : List Row)
    (w : Widgets) (bg : List Nat) (h : page ∈ pageOptions) :
    pageOptions = [ "Overview", "Visualizations", "Filters", "About" ] ∧
    ∃! e : String × List OutputElem,
      e ∈ branchTable df w bg ∧ e.1 = page ∧
      renderPage page df w bg = e.2 := by
  refine ⟨rfl, ?_⟩
  have h4 : page = "Overview" ∨ page = "Visualizations" ∨ page = "Filters" ∨
      page = "About" := by
    simpa [pageOptions] using h
  rcases h4 with h | h | h | h <;> subst h
  · refine ⟨("Overview", renderOverview df w bg),
      ⟨by simp [branchTable], rfl, by simp [renderPage]⟩, ?_⟩
    rintro ⟨l, out⟩ ⟨hmem, hfst, hout⟩
    simp only [branchTable, List.mem_cons, List.not_mem_nil, or_false,
      Prod.mk.injEq] at hmem
    rcases hmem with ⟨h1, h2⟩ | ⟨h1, h2⟩ | ⟨h1, h2⟩ | ⟨h1, h2⟩ <;>
      subst h1 <;> subst h2 <;> simp_all
  · refine ⟨("Visualizations", renderVisualizations df w),
      ⟨by simp [branchTable], rfl, by simp [renderPage]⟩, ?_⟩
    rintro ⟨l, out⟩ ⟨hmem, hfst, hout⟩
    simp only [branchTable, List.mem_cons, List.not_mem_nil, or_false,
      Prod.mk.injEq] at hmem
    rcases hmem with ⟨h1, h2⟩ | ⟨h1, h2⟩ | ⟨h1, h2⟩ | ⟨h1, h2⟩ <;>
      subst h1 <;> subst h2 <;> simp_all
  · refine ⟨("Filters", renderFilters df w),
      ⟨by simp [branchTable], rfl, by simp [renderPage]⟩, ?_⟩
    rintro ⟨l, out⟩ ⟨hmem, hfst, hout⟩
    simp only [branchTable, List.mem_cons, List.not_mem_nil, or_false,
      Prod.mk.injEq] at hmem
    rcases hmem with ⟨h1, h2⟩ | ⟨h1, h2⟩ | ⟨h1, h2⟩ | ⟨h1, h2⟩ <;>
      subst h1 <;> subst h2 <;> simp_all
  · refine ⟨("About", renderAbout),
      ⟨by simp [branchTable], rfl, by simp [renderPage]⟩, ?_⟩
    rintro ⟨l, out⟩ ⟨hmem, hfst, hout⟩
    simp only [branchTable, List.mem_cons, List.not_mem_nil, or_false,
      Prod.mk.injEq] at hmem
    rcases hmem with ⟨h1, h2⟩ | ⟨h1, h2⟩ | ⟨h1, h2⟩ | ⟨h1, h2⟩ <;>
      subst h1 <;> subst h2 <;> simp_all

/-- C1 witness: the dispatch at the concrete selection Filters. -/
theorem sidebar_dispatch_exactly_one_witness :
    pageOptions = [ "Overview", "Visualizations", "Filters", "About" ] ∧
    ∃! e : String × List OutputElem,
      e ∈ branchTable sampleDf sampleWidgets [] ∧ e.1 = "Filters" ∧
      renderPage "Filters" sampleDf sampleWidgets [] = e.2 :=
  sidebar_dispatch_exactly_one "Filters" sampleDf sampleWidgets []
    (by simp [pageOptions])

/-- C2: the tables displayed by the daily-vaccinations slider
(Visualizations) and number input (Filters) are exactly the rows of the
loaded table whose daily_vaccinations strictly exceed the chosen threshold,
and the trend line chart is built from the loaded table with x = date and
y = the chosen column. -/
theorem threshold_filters_and_trend_chart (df : List Row) (w : Widgets)
    (_hc : w.selectedColumn ∈ columns) :
    (OutputElem.dataframe (thresholdFilter df w.threshold) ∈
        renderVisualizations df w ∧
      ∀ r : Row, r ∈ thresholdFilter df w.threshold ↔
        r ∈ df ∧ w.threshold < r.daily_vaccinations) ∧
    (OutputElem.dataframe (thresholdFilter df w.minInput) ∈
        renderFilters df w ∧
      ∀ r : Row, r ∈ thresholdFilter df w.minInput ↔
        r ∈ df ∧ w.minInput < r.daily_vaccinations) ∧
    OutputElem.lineChart df "date" w.selectedColumn ∈
      renderVisualizations df w := by
  refine ⟨⟨?_, fun r => mem_thresholdFilter df w.threshold r⟩,
    ⟨?_, fun r => mem_thresholdFilter df w.minInput r⟩, ?_⟩
  · simp [renderVisualizations]
  · simp [renderFilters]
  · simp [renderVisualizations]

/-- C2 witness: the filters and the trend chart on the sample table. -/
theorem threshold_filters_and_trend_chart_witness :
    (OutputElem.dataframe (thresholdFilter sampleDf sampleWidgets.threshold) ∈
        renderVisualizations sampleDf sampleWidgets ∧
      ∀ r : Row, r ∈ thresholdFilter sampleDf sampleWidgets.threshold ↔
        r ∈ sampleDf ∧ sampleWidgets.threshold < r.daily_vaccinations) ∧
    (OutputElem.dataframe (thresholdFilter sampleDf sampleWidgets.minInput) ∈
        renderFilters sampleDf sampleWidgets ∧
      ∀ r : Row, r ∈ thresholdFilter sampleDf sampleWidgets.minInput ↔
        r ∈ sampleDf ∧ sampleWidgets.minInput < r.daily_vaccinations) ∧
    OutputElem.lineChart sampleDf "date" sampleWidgets.selectedColumn ∈
      renderVisualizations sampleDf sampleWidgets :=
  threshold_filters_and_trend_chart sampleDf sampleWidgets (by decide)

/-- C3: the KPIs of the Overview page and the metric cards of the
Visualizations page are the maximum of people_vaccinated, the mean of
daily_vaccinations, and the date of a row attaining the maximum of
daily_vaccinations, all computed from hard-coded columns of the loaded
table. -/
theorem kpi_statistics (df : List Row) (w : Widgets) (bg : List Nat)
    (hne : df ≠ []) :
    ∃ total : Int, ∃ avg : Rat, ∃ peak : Row,
      colMax df (fun r => r.people_vaccinated) = some total ∧
      (∃ r ∈ df, r.people_vaccinated = total) ∧
      (∀ r ∈ df, r.people_vaccinated ≤ total) ∧
      colMean df (fun r => r.daily_vaccinations) = some avg ∧
      avg * (df.length : Rat) =
        (((df.map (fun r => r.daily_vaccinations)).sum : Int) : Rat) ∧
      idxmaxRow df (fun r => r.daily_vaccinations) = some peak ∧
      peak ∈ df ∧
      (∀ r ∈ df, r.daily_vaccinations ≤ peak.daily_vaccinations) ∧
      OutputElem.metric "💉 Total People Vaccinated" (some (.vInt total)) ∈
        renderOverview df w bg ∧
      OutputElem.metric "📆 Average Daily Vaccinations" (some (.vRat avg)) ∈
        renderOverview df w bg ∧
      OutputElem.metric "🔝 Peak Vaccination Day" (some (.vInt peak.date)) ∈
        renderOverview df w bg ∧
      OutputElem.metric "Total Vaccinated" (some (.vInt total)) ∈
        renderVisualizations df w ∧
      OutputElem.metric "Average Daily Vaccinations" (some (.vRat avg)) ∈
        renderVisualizations df w ∧
      OutputElem.metric "Peak Vaccination Day" (some (.vInt peak.date)) ∈
        renderVisualizations df w := by
  obtain ⟨total, htot, hex, hub⟩ :=
    colMax_spec df (fun r => r.people_vaccinated) hne
  obtain ⟨avg, havg, hsum⟩ := colMean_spec df (fun r => r.daily_vaccinations) hne
  obtain ⟨peak, hpeak, hpmem, hpub⟩ :=
    idxmaxRow_spec df (fun r => r.daily_vaccinations) hne
  refine ⟨total, avg, peak, htot, hex, hub, havg, hsum, hpeak, hpmem, hpub,
    ?_, ?_, ?_, ?_, ?_, ?_⟩ <;>
    simp [renderOverview, renderVisualizations, htot, havg, hpeak]

/-- C3 witness: the statistics on the concrete sample table. -/
theorem kpi_statistics_witness :
    ∃ total : Int, ∃ avg : Rat, ∃ peak : Row,
      colMax sampleDf (fun r => r.people_vaccinated) = some total ∧
      (∃ r ∈ sampleDf, r.people_vaccinated = total) ∧
      (∀ r ∈ sampleDf, r.people_vaccinated ≤ total) ∧
      colMean sampleDf (fun r => r.daily_vaccinations) = some avg ∧
      avg * (sampleDf.length : Rat) =
        (((sampleDf.map (fun r => r.daily_vaccinations)).sum : Int) : Rat) ∧
      idxmaxRow sampleDf (fun r => r.daily_vaccinations) = some peak ∧
      peak ∈ sampleDf ∧
      (∀ r ∈ sampleDf, r.daily_vaccinations ≤ peak.daily_vaccinations) ∧
      OutputElem.metric "💉 Total People Vaccinated" (some (.vInt total)) ∈
        renderOverview sampleDf sampleWidgets [] ∧
      OutputElem.metric "📆 Average Daily Vaccinations" (some (.vRat avg)) ∈
        renderOverview sampleDf sampleWidgets [] ∧
      OutputElem.metric "🔝 Peak Vaccination Day" (some (.vInt peak.date)) ∈
        renderOverview sampleDf sampleWidgets [] ∧
      OutputElem.metric "Total Vaccinated" (some (.vInt total)) ∈
        renderVisualizations sampleDf sampleWidgets ∧
      OutputElem.metric "Average Daily Vaccinations" (some (.vRat avg)) ∈
        renderVisualizations sampleDf sampleWidgets ∧
      OutputElem.metric "Peak Vaccination Day" (some (.vInt peak.date)) ∈
        renderVisualizations sampleDf sampleWidgets :=
  kpi_statistics sampleDf sampleWidgets [] (by decide)

/-- C4: there is a single memoized load: `load_data` is deterministic in the
file contents, and every page branch of the script body renders from the one
table produced by that single call. -/
theorem load_data_single_memoized (csv1 csv2 : List (List String))
    (page : String) (w : Widgets) (bg : List Nat) (df : List Row)
    (heq : csv1 = csv2) (hload : load_data csv1 = some df) :
    load_data csv2 = some df ∧
    renderScript page w csv1 bg = renderPage page df w bg ∧
    renderScript page w csv2 bg = renderPage page df w bg := by
  subst heq
  exact ⟨hload, by simp [renderScript, hload], by simp [renderScript, hload]⟩

/-- C4 witness: loading the concrete sample CSV. -/
theorem load_data_single_memoized_witness :
    load_data sampleCsv = some sampleDf ∧
    renderScript "Overview" sampleWidgets sampleCsv [] =
      renderPage "Overview" sampleDf sampleWidgets [] ∧
    renderScript "Overview" sampleWidgets sampleCsv [] =
      renderPage "Overview" sampleDf sampleWidgets [] :=
  load_data_single_memoized sampleCsv sampleCsv "Overview" sampleWidgets []
    sampleDf rfl (by decide)

/-- C5: every filter operation is a pure boolean-mask row subset or column
projection of the single flat loaded table: each mask filter and any
sequence of them yields a sublist of the original table, and the column
projection keeps every row of the table. -/
theorem filters_pure_subsets (df : List Row) (ops : List FilterOp)
    (s : String) (cols : List String) (lo hi t : Int) :
    (isoFilter df s).Sublist df ∧
    (dateRangeFilter df lo hi).Sublist df ∧
    (thresholdFilter df t).Sublist df ∧
    (selectCols df cols).length = df.length ∧
    (∀ r ∈ df, cols.map r.cell ∈ selectCols df cols) ∧
    (applyOps ops df).Sublist df := by
  refine ⟨List.filter_sublist df, List.filter_sublist df,
    List.filter_sublist df, by simp [selectCols], ?_, applyOps_sublist ops df⟩
  intro r hr
  exact List.mem_map_of_mem (fun r => cols.map r.cell) hr

/-- C6: the rendered output is a function of the sidebar selection, the
widget values and the input files alone: two runs agreeing on those render
identical pages. -/
theorem render_depends_only_on_inputs (p1 p2 : String) (w1 w2 : Widgets)
    (c1 c2 : List (List String)) (b1 b2 : List Nat)
    (hp : p1 = p2) (hw : w1 = w2) (hc : c1 = c2) (hb : b1 = b2) :
    renderScript p1 w1 c1 b1 = renderScript p2 w2 c2 b2 := by
  subst hp
  subst hw
  subst hc
  subst hb
  rfl

/-- C6 witness: two identical concrete runs render identically. -/
theorem render_depends_only_on_inputs_witness :
    renderScript "About" sampleWidgets sampleCsv [] =
      renderScript "About" sampleWidgets sampleCsv [] :=
  render_depends_only_on_inputs "About" "About" sampleWidgets sampleWidgets
    sampleCsv sampleCsv [] [] rfl rfl rfl rfl

/-- C7: the About branch renders a fixed title and a fixed markdown constant
that read neither the loaded table nor any widget input, so its output is
identical for every dataset, widget assignment and background image. -/
theorem about_branch_static (df1 df2 : List Row) (w1 w2 : Widgets)
    (bg1 bg2 : List Nat) :
    renderPage "About" df1 w1 bg1 =
      [ .title "💬 About this Dashboard", .markdown aboutText ] ∧
    renderPage "About" df1 w1 bg1 = renderPage "About" df2 w2 bg2 := by
  constructor
  · rfl
  · rfl

/-- C8 counterexample: `load_data` accepts a CSV whose records carry two
different iso_code values, so the loaded table is not restricted to one
country for every input CSV the program accepts. -/
theorem multi_country_csv_accepted :
    load_data twoCountryCsv = some [ sampleRow1, rowUSA ] ∧
    sampleRow1.iso_code ≠ rowUSA.iso_code := by
  constructor
  · decide
  · decide

/-- C8 amended: the program does not enforce a one-country dataset (load_data
accepts multi-country CSVs); what holds is that each ISO-code filter view is
single-country: every row of the table displayed by the ISO-code filter
carries the selected iso_code value. -/
theorem iso_filter_single_country (df : List Row) (w : Widgets) (r : Row)
    (h : r ∈ isoFilter df w.selectedIso) :
    r.iso_code = w.selectedIso ∧
    OutputElem.dataframe (isoFilter df w.selectedIso) ∈
      renderVisualizations df w :=
  ⟨((mem_isoFilter df w.selectedIso r).mp h).2, by simp [renderVisualizations]⟩

/-- C8 amended witness: the ISO-code filter view on the sample table. -/
theorem iso_filter_single_country_witness :
    sampleRow1.iso_code = sampleWidgets.selectedIso ∧
    OutputElem.dataframe (isoFilter sampleDf sampleWidgets.selectedIso) ∈
      renderVisualizations sampleDf sampleWidgets :=
  iso_filter_single_country sampleDf sampleWidgets sampleRow1 (by decide)

/-- C9: the download button payload is exactly the rows of the loaded table
whose date lies between the two selected endpoints inclusive, and it is
unaffected by every other widget on the page (in particular the threshold
slider). -/
theorem download_reflects_date_range_only (df : List Row) (w w2 : Widgets)
    (r : Row) (hlo : w.dateLo = w2.dateLo) (hhi : w.dateHi = w2.dateHi) :
    OutputElem.downloadButton "Download Filtered Data" (downloadData df w) ∈
      renderVisualizations df w ∧
    (r ∈ downloadData df w ↔
      r ∈ df ∧ w.dateLo ≤ r.date ∧ r.date ≤ w.dateHi) ∧
    downloadData df w = downloadData df w2 := by
  refine ⟨by simp [renderVisualizations],
    mem_dateRangeFilter df w.dateLo w.dateHi r, ?_⟩
  simp [downloadData, hlo, hhi]

/-- C9 witness: the download payload on the sample table under two widget
assignments that differ in the threshold and minimum filters. -/
theorem download_reflects_date_range_only_witness :
    OutputElem.downloadButton "Download Filtered Data"
        (downloadData sampleDf sampleWidgets) ∈
      renderVisualizations sampleDf sampleWidgets ∧
    (sampleRow1 ∈ downloadData sampleDf sampleWidgets ↔
      sampleRow1 ∈ sampleDf ∧ sampleWidgets.dateLo ≤ sampleRow1.date ∧
        sampleRow1.date ≤ sampleWidgets.dateHi) ∧
    downloadData sampleDf sampleWidgets = downloadData sampleDf sampleWidgets2 :=
  download_reflects_date_range_only sampleDf sampleWidgets sampleWidgets2
    sampleRow1 rfl rfl

/-- C10: both daily-vaccinations filters are strict: a row whose
daily_vaccinations exactly equals the slider threshold (or the entered
minimum) is excluded from the displayed table. -/
theorem boundary_row_excluded (df : List Row) (w : Widgets) (r : Row)
    (ht : r.daily_vaccinations = w.threshold) :
    OutputElem.dataframe (thresholdFilter df w.threshold) ∈
      renderVisualizations df w ∧
    r ∉ thresholdFilter df w.threshold ∧
    OutputElem.dataframe (thresholdFilter df w.minInput) ∈
      renderFilters df w ∧
    (r.daily_vaccinations = w.minInput → r ∉ thresholdFilter df w.minInput) := by
  refine ⟨by simp [renderVisualizations], ?_, by simp [renderFilters], ?_⟩
  · intro hmem
    obtain ⟨-, hlt⟩ := (mem_thresholdFilter df w.threshold r).mp hmem
    omega
  · intro hm hmem
    obtain ⟨-, hlt⟩ := (mem_thresholdFilter df w.minInput r).mp hmem
    omega

/-- C10 witness: the sample row whose daily_vaccinations equals the sample
threshold is excluded. -/
theorem boundary_row_excluded_witness :
    OutputElem.dataframe (thresholdFilter sampleDf sampleWidgets.threshold) ∈
      renderVisualizations sampleDf sampleWidgets ∧
    sampleRow1 ∉ thresholdFilter sampleDf sampleWidgets.threshold ∧
    OutputElem.dataframe (thresholdFilter sampleDf sampleWidgets.minInput) ∈
      renderFilters sampleDf sampleWidgets ∧
    (sampleRow1.daily_vaccinations = sampleWidgets.minInput →
      sampleRow1 ∉ thresholdFilter sampleDf sampleWidgets.minInput) :=
  boundary_row_excluded sampleDf sampleWidgets sampleRow1 (by decide)

end App
